/-
Verification of the device-sdk-go runtime kernel (Modbus device service).

Shallow embedding of the Go source:
  * `swapBitDataBytes`, `setResult`, `getReadValues`' swap extraction and
    `updateOperatingState` from the Modbus driver,
  * the callback reconciler `handleDevice` (PUT and DELETE paths),
  * the autoevent scheduler's `AddScheduleEvent` / `RemoveScheduleEvent`,
  * the bootstrap dependency check `checkDependencyServices` /
    `checkServiceAvailable`.

Bytes are modelled as `Nat` (each < 256 where relevant), Go's `int64` as
`Int` with explicit two's-complement reduction, Go errors as `Option String`,
and side effects (cron engine calls, scheduler manipulation, core client
calls) as explicit action traces.
-/
import Mathlib

set_option maxRecDepth 8000

namespace DeviceSdk

/-! ### swapBitDataBytes (Modbus driver)

Direct translation of `swapBitDataBytes(dataBytes []byte, isByteSwap bool,
isWordSwap bool) []byte`.  The Go function allocates a zero-filled
`newDataBytes` of the same length, fills it from the byte-swap block when
`isByteSwap` is set, then overwrites it entirely from the word-swap block
when `isWordSwap` is set (widths 4 and 8; at width 2 there is no word-swap
block, so the zero-filled buffer is returned when only `isWordSwap` is set).
Widths other than 2, 4, 8 fall through and return the input unchanged. -/

def swapBitDataBytes (dataBytes : List Nat) (isByteSwap isWordSwap : Bool) :
    List Nat :=
  if !isByteSwap && !isWordSwap then dataBytes
  else
    match dataBytes with
    | [b0, b1] =>
        -- newDataBytes starts zero-filled; only the byte-swap block fills it
        let n := [0, 0]
        let n := if isByteSwap then [b1, b0] else n
        n
    | [b0, b1, b2, b3] =>
        let n := [0, 0, 0, 0]
        let n := if isByteSwap then [b1, b0, b3, b2] else n
        -- the word-swap block overwrites every cell from the original bytes
        let n := if isWordSwap then [b2, b3, b0, b1] else n
        n
    | [b0, b1, b2, b3, b4, b5, b6, b7] =>
        let n := [0, 0, 0, 0, 0, 0, 0, 0]
        let n := if isByteSwap then [b1, b0, b3, b2, b5, b4, b7, b6] else n
        let n := if isWordSwap then [b6, b7, b4, b5, b2, b3, b0, b1] else n
        n
    | l => l

end DeviceSdk

namespace DeviceSdk

/-- C1: the round-trip claim as stated is false at width 2 with
`isByteSwap = false, isWordSwap = true`: the Go function returns the
zero-filled buffer `[0, 0]`, so applying it twice to `[1, 0]` yields
`[0, 0]`, not the original bytes. -/
theorem swapBitDataBytes_width2_wordSwap_not_involutive :
    swapBitDataBytes (swapBitDataBytes [1, 0] false true) false true = [0, 0] ∧
    ([0], [0, 0]) ≠ ([0], [1, 0]) := by
  refine ⟨rfl, by decide⟩

/-- C1 (amended): double application of `swapBitDataBytes` with the same
flags is the identity on well-formed byte strings of width 4 or 8 for every
flag pair, and of width 2 except when `isWordSwap` is set without
`isByteSwap` (there the function zeroes the bytes).  Moreover, when both
flags are set at width 4 or 8 the word-swap block overwrites the byte-swap
block, so the single application equals a pure word swap. -/
theorem swapBitDataBytes_involutive (d : List Nat) (bs ws : Bool)
    (hlen : d.length = 2 ∨ d.length = 4 ∨ d.length = 8)
    (h2 : d.length = 2 → (bs = true ∨ ws = false)) :
    swapBitDataBytes (swapBitDataBytes d bs ws) bs ws = d ∧
    (d.length = 4 ∨ d.length = 8 → bs = true → ws = true →
      swapBitDataBytes d bs ws = swapBitDataBytes d false true) := by
  rcases d with _ | ⟨b0, _ | ⟨b1, _ | ⟨b2, _ | ⟨b3, _ | ⟨b4, _ | ⟨b5, _ |
    ⟨b6, _ | ⟨b7, _ | ⟨b8, t⟩⟩⟩⟩⟩⟩⟩⟩⟩
  · simp at hlen
  · simp at hlen
  · -- width 2
    rcases bs with _ | _ <;> rcases ws with _ | _ <;>
      simp_all [swapBitDataBytes]
  · simp at hlen
  · -- width 4
    rcases bs with _ | _ <;> rcases ws with _ | _ <;>
      simp_all [swapBitDataBytes]
  · simp at hlen
  · simp at hlen
  · simp at hlen
  · -- width 8
    rcases bs with _ | _ <;> rcases ws with _ | _ <;>
      simp_all [swapBitDataBytes]
  · simp [List.length] at hlen

/-- C1 witness: the amended round-trip theorem at width 4 with both flags
set, on the concrete bytes `[1, 2, 3, 4]`. -/
theorem swapBitDataBytes_involutive_witness :
    swapBitDataBytes (swapBitDataBytes [1, 2, 3, 4] true true) true true =
      [1, 2, 3, 4] := by
  exact (swapBitDataBytes_involutive [1, 2, 3, 4] true true
    (by simp) (by simp)).1

/-! ### Swap-flag extraction in getReadValues (Modbus driver)

Lines 380–392 of the driver read the `IsByteSwap` and `IsWordSwap` profile
attributes and store them into the `readConfig` being built.  The source
assigns `readConfig.isByteSwap` in *both* blocks: the block that tests the
`IsWordSwap` attribute also writes the `isByteSwap` field, and
`readConfig.isWordSwap` is never assigned (it keeps its zero value). -/

structure SwapFlags where
  isByteSwap : Bool
  isWordSwap : Bool
deriving DecidableEq

/-- Go's truthiness test for the swap attributes:
`s == "true" || s == "True" || s == "TRUE"`. -/
def isSwapAttrTrue (s : String) : Bool :=
  s == "true" || s == "True" || s == "TRUE"

/-- The `readConfig` swap fields produced by `getReadValues`, given the two
attribute strings.  Transliterated statement by statement: the second `if`
(on the `IsWordSwap` attribute) assigns `readConfig.isByteSwap`, exactly as
the source does. -/
def getReadValuesSwap (isByteSwapAttr isWordSwapAttr : String) : SwapFlags :=
  let readConfig : SwapFlags := { isByteSwap := false, isWordSwap := false }
  let readConfig :=
    if isSwapAttrTrue isByteSwapAttr then { readConfig with isByteSwap := true }
    else { readConfig with isByteSwap := false }
  let readConfig :=
    if isSwapAttrTrue isWordSwapAttr then { readConfig with isByteSwap := true }
    else { readConfig with isByteSwap := false }
  readConfig

/-- C2: the effective swap flags do not equal the profile attributes.  With
`IsByteSwap = "true"` and `IsWordSwap = "false"` the code yields
`isByteSwap = false` (the `IsWordSwap` block overwrites it), and with
`IsByteSwap = "false"`, `IsWordSwap = "true"` it yields `isByteSwap = true`
and `isWordSwap = false`: the `IsByteSwap` attribute is ignored, the
`IsWordSwap` attribute drives `isByteSwap`, and `isWordSwap` is never set. -/
theorem getReadValuesSwap_misassigns_flags :
    getReadValuesSwap "true" "false" = { isByteSwap := false, isWordSwap := false } ∧
    getReadValuesSwap "false" "true" = { isByteSwap := true, isWordSwap := false } ∧
    getReadValuesSwap "true" "false" ≠ { isByteSwap := true, isWordSwap := false } := by
  refine ⟨rfl, rfl, by decide⟩

/-! ### setResult (Modbus driver)

`setResult(readConf modbusReadConfig, dat []byte, creq) (CommandValue, error)`
first switches on the wire `vType`, producing one of the four locals
`valueInt : int64`, `valueFloat : float64`, `valueBool`, `valueString`
together with the tag `difType`; an unknown `vType` returns the zero
`CommandValue` with a non-nil error.  It then branches on
`readConf.resultType`, calling the matching `ds_models.New*Value`
constructor; a resultType/difType pair with no matching arm leaves the zero
`CommandValue` and the nil error in place. -/

/-- Big-endian decode of the first `w` bytes, Go's
`binary.BigEndian.Uint16/32/64` (which panic on shorter slices; the padding
with 0 here is never exercised by a theorem). -/
def beUint (w : Nat) (b : List Nat) : Nat :=
  (List.range w).foldl (fun acc i => acc * 256 + b.getD i 0) 0

/-- Go's conversion `int64(x)` for `x : uint64`: two's complement, values
at or above `2^63` wrap to negatives.  `beUint 8` of genuine bytes is
always `< 2^64`, so no modulus is taken. -/
def int64OfUint64 (n : Nat) : Int :=
  if n < 2 ^ 63 then (n : Int) else (n : Int) - 2 ^ 64

/-- The STRING branch of `setResult`: keep bytes in `0x20..0x7F`, as ASCII
characters, drop the rest. -/
def asciiFilter (dat : List Nat) : String :=
  String.mk ((dat.filter (fun b => 0x20 ≤ b && b ≤ 0x7F)).map
    (fun b => Char.ofNat b))

def hexDigit (n : Nat) : Char :=
  if n < 10 then Char.ofNat (48 + n) else Char.ofNat (87 + n)

/-- The ARRAY branch of `setResult`: Go's `hex.EncodeToString`, lowercase,
two digits per byte. -/
def hexEncode (dat : List Nat) : String :=
  String.mk (dat.foldr
    (fun b acc => hexDigit (b / 16 % 16) :: hexDigit (b % 16) :: acc) [])

/-- The value produced by the first switch of `setResult`: one of the Go
locals `valueInt`, `valueFloat`, `valueBool`, `valueString`, tagged by
`difType`.  IEEE-754 payloads are kept as their raw big-endian bit
patterns; no claim below inspects float arithmetic. -/
inductive DecodedVal where
  | intV (v : Int)
  | floatBits (bits : Nat)
  | boolV (b : Bool)
  | strV (s : String)
deriving DecidableEq

/-- The subset of `modbusReadConfig` that `setResult` reads (`function`,
`address` and `size` are only used by the read/write helpers). -/
structure ModbusReadConfig where
  vType : String
  isByteSwap : Bool
  isWordSwap : Bool
  resultType : String
  precision : Int

/-- The `vType` switch of `setResult`.  Note: the UINT and the INT cases
are identical — Go converts `uint16`/`uint32` to `int64` without sign
extension, only `int64(uint64)` wraps; and the FLOAT cases pass `dat` to
the decoder *without* `swapBitDataBytes`. -/
def decodeVType (vType : String) (bs ws : Bool) (dat : List Nat) :
    Option DecodedVal :=
  match vType with
  | "UINT16" => some (.intV (beUint 2 (swapBitDataBytes dat bs ws)))
  | "UINT32" => some (.intV (beUint 4 (swapBitDataBytes dat bs ws)))
  | "UINT64" => some (.intV (int64OfUint64 (beUint 8 (swapBitDataBytes dat bs ws))))
  | "INT16" => some (.intV (beUint 2 (swapBitDataBytes dat bs ws)))
  | "INT32" => some (.intV (beUint 4 (swapBitDataBytes dat bs ws)))
  | "INT64" => some (.intV (int64OfUint64 (beUint 8 (swapBitDataBytes dat bs ws))))
  | "FLOAT32" => some (.floatBits (beUint 4 dat))
  | "FLOAT64" => some (.floatBits (beUint 8 dat))
  | "BOOL" => some (.boolV (dat.any (fun b => b != 0)))
  | "STRING" => some (.strV (asciiFilter dat))
  | "ARRAY" => some (.strV (hexEncode dat))
  | _ => none

/-- The `ds_models.CommandValue` result, as far as the theorems inspect
it: each constructor records which `ds_models.New*Value` call produced the
value and its payload; `zero` is the zero value `&CommandValue{}` returned
when no constructor was reached.  Float payloads stay symbolic. -/
inductive CommandValue where
  | zero
  | int64V (v : Int)
  | int64OfFloat (bits : Nat)
  | float64V (bits : Nat) (precision : Int)
  | float64OfInt (v : Int)
  | boolV (b : Bool)
  | stringV (s : String)
deriving DecidableEq

def setResult (readConf : ModbusReadConfig) (dat : List Nat) :
    CommandValue × Option String :=
  match decodeVType readConf.vType readConf.isByteSwap readConf.isWordSwap dat with
  | none =>
      (CommandValue.zero,
        some ("return result fail, none supported value type: " ++ readConf.vType))
  | some dv =>
      match readConf.resultType with
      | "Bool" =>
          match dv with
          | .boolV b => (.boolV b, none)
          | .strV s => (.stringV s, none)
          | _ => (.zero, none)
      | "String" =>
          -- NewStringValue(valueString); valueString is "" unless difType String
          (.stringV (match dv with | .strV s => s | _ => ""), none)
      | "Integer" =>
          match dv with
          | .floatBits bits => (.int64OfFloat bits, none)
          | .intV v => (.int64V v, none)
          | _ => (.zero, none)
      | "Float" =>
          match dv with
          | .floatBits bits => (.float64V bits readConf.precision, none)
          | .intV v => (.float64OfInt v, none)
          | _ => (.zero, none)
      | _ => (.zero, none)

/-- C3: the claim's signed decode is false — `setResult` converts the
INT16 big-endian decode without sign extension: bytes `[0xFF, 0xFF]`
with vType `INT16` and resultType `Integer` yield the Integer 65535, not
`-1`. -/
theorem setResult_INT16_not_sign_extended :
    setResult { vType := "INT16", isByteSwap := false, isWordSwap := false,
                resultType := "Integer", precision := 0 } [0xFF, 0xFF] =
      (CommandValue.int64V 65535, none) ∧ (65535 : Int) ≠ -1 := by
  refine ⟨rfl, by decide⟩

/-- C3 (amended): for the integer wire types mapped to resultType
`Integer`, `setResult` returns the big-endian decode of the swap-adjusted
bytes with a nil error — unsigned for UINT16/UINT32 *and also* for
INT16/INT32 (no sign extension), and two's-complement only at width 8
(UINT64/INT64 share Go's `int64(uint64)` wrap).  In particular bytes
`[0x01, 0x2C]` with vType UINT16 and no swap yield the Integer 300. -/
theorem setResult_integer_decode (dat : List Nat) (bs ws : Bool) (p : Int) :
    (setResult { vType := "UINT16", isByteSwap := bs, isWordSwap := ws,
                 resultType := "Integer", precision := p } dat =
       (CommandValue.int64V (beUint 2 (swapBitDataBytes dat bs ws)), none)) ∧
    (setResult { vType := "INT16", isByteSwap := bs, isWordSwap := ws,
                 resultType := "Integer", precision := p } dat =
       (CommandValue.int64V (beUint 2 (swapBitDataBytes dat bs ws)), none)) ∧
    (setResult { vType := "UINT32", isByteSwap := bs, isWordSwap := ws,
                 resultType := "Integer", precision := p } dat =
       (CommandValue.int64V (beUint 4 (swapBitDataBytes dat bs ws)), none)) ∧
    (setResult { vType := "INT32", isByteSwap := bs, isWordSwap := ws,
                 resultType := "Integer", precision := p } dat =
       (CommandValue.int64V (beUint 4 (swapBitDataBytes dat bs ws)), none)) ∧
    (setResult { vType := "UINT64", isByteSwap := bs, isWordSwap := ws,
                 resultType := "Integer", precision := p } dat =
       (CommandValue.int64V (int64OfUint64 (beUint 8 (swapBitDataBytes dat bs ws))), none)) ∧
    (setResult { vType := "INT64", isByteSwap := bs, isWordSwap := ws,
                 resultType := "Integer", precision := p } dat =
       (CommandValue.int64V (int64OfUint64 (beUint 8 (swapBitDataBytes dat bs ws))), none)) ∧
    (setResult { vType := "UINT16", isByteSwap := false, isWordSwap := false,
                 resultType := "Integer", precision := p } [0x01, 0x2C] =
       (CommandValue.int64V 300, none)) := by
  exact ⟨rfl, rfl, rfl, rfl, rfl, rfl, rfl⟩

/-- C10: it is false that every vType/resultType pair outside the
transformation table yields the zero CommandValue — vType `STRING` with
resultType `Bool` is not in the table, yet `setResult` returns a String
CommandValue (here `"A"` from byte 0x41), not the zero value (the error is
nil, as claimed). -/
theorem setResult_unmapped_counterexample :
    setResult { vType := "STRING", isByteSwap := false, isWordSwap := false,
                resultType := "Bool", precision := 0 } [0x41] =
      (CommandValue.stringV "A", none) ∧
    CommandValue.stringV "A" ≠ CommandValue.zero := by
  refine ⟨rfl, by decide⟩

/-- C10 (amended): every vType/resultType combination outside the
transformation table yields a nil error.  The result is the zero-valued
CommandValue for resultType `Json` with every supported vType, for
resultType `Bool` with every numeric vType, and for resultType `Integer`
or `Float` with vType `BOOL`/`STRING`/`ARRAY` — but not universally: with
resultType `Bool` the string-producing vTypes `STRING`/`ARRAY` return a
String CommandValue, and resultType `String` with a non-string vType
returns the String CommandValue of the empty string. -/
theorem setResult_unmapped (dat : List Nat) (bs ws : Bool) (p : Int) :
    (∀ vt ∈ ["UINT16", "UINT32", "UINT64", "INT16", "INT32", "INT64",
             "FLOAT32", "FLOAT64", "BOOL", "STRING", "ARRAY"],
       setResult { vType := vt, isByteSwap := bs, isWordSwap := ws,
                   resultType := "Json", precision := p } dat =
         (CommandValue.zero, none)) ∧
    (∀ vt ∈ ["UINT16", "UINT32", "UINT64", "INT16", "INT32", "INT64",
             "FLOAT32", "FLOAT64"],
       setResult { vType := vt, isByteSwap := bs, isWordSwap := ws,
                   resultType := "Bool", precision := p } dat =
         (CommandValue.zero, none)) ∧
    (∀ vt ∈ ["BOOL", "STRING", "ARRAY"],
       setResult { vType := vt, isByteSwap := bs, isWordSwap := ws,
                   resultType := "Integer", precision := p } dat =
         (CommandValue.zero, none)) ∧
    (∀ vt ∈ ["BOOL", "STRING", "ARRAY"],
       setResult { vType := vt, isByteSwap := bs, isWordSwap := ws,
                   resultType := "Float", precision := p } dat =
         (CommandValue.zero, none)) ∧
    (setResult { vType := "STRING", isByteSwap := bs, isWordSwap := ws,
                 resultType := "Bool", precision := p } dat =
       (CommandValue.stringV (asciiFilter dat), none)) ∧
    (setResult { vType := "ARRAY", isByteSwap := bs, isWordSwap := ws,
                 resultType := "Bool", precision := p } dat =
       (CommandValue.stringV (hexEncode dat), none)) ∧
    (∀ vt ∈ ["UINT16", "UINT32", "UINT64", "INT16", "INT32", "INT64",
             "FLOAT32", "FLOAT64", "BOOL"],
       setResult { vType := vt, isByteSwap := bs, isWordSwap := ws,
                   resultType := "String", precision := p } dat =
         (CommandValue.stringV "", none)) := by
  refine ⟨?_, ?_, ?_, ?_, rfl, rfl, ?_⟩ <;>
    · intro vt hvt
      fin_cases hvt <;> rfl

/-- C10 witness: the amended theorem at vType `UINT16`, resultType
`Json`, bytes `[1, 2]`. -/
theorem setResult_unmapped_witness :
    setResult { vType := "UINT16", isByteSwap := false, isWordSwap := false,
                resultType := "Json", precision := 0 } [1, 2] =
      (CommandValue.zero, none) := by
  exact (setResult_unmapped [1, 2] false false 0).1 "UINT16" (by simp)

/-! ### updateOperatingState (Modbus driver)

`updateOperatingState(m *ModbusDriver, e error, deviceName string)` looks
the device up in the cache, and
  * on an error whose text contains "timeout", if the device is Enabled,
    sets it Disabled, updates the cache, and launches one
    `UpdateOpStateByName` call;
  * on a nil error, if the device is Disabled, sets it Enabled, updates the
    cache, and launches one `UpdateOpStateByName` call;
  * otherwise changes nothing and launches no call.
(The trailing block only rewrites a gpio LED file and touches no device
state.)  The error is an `Option String` (`none` = nil), the device's
current operating state is passed explicitly. -/

inductive OperatingState where
  | Enabled
  | Disabled
deriving DecidableEq

def matchesPfx : List Char → List Char → Bool
  | [], _ => true
  | _ :: _, [] => false
  | a :: pa, b :: pb => a == b && matchesPfx pa pb

def containsSub : List Char → List Char → Bool
  | [], sub => sub.isEmpty
  | hay@(_ :: rest), sub => matchesPfx sub hay || containsSub rest sub

/-- Go's `strings.Contains(s, substr)`. -/
def strContains (s substr : String) : Bool := containsSub s.data substr.data

/-- What one `updateOperatingState` call does to the named device: its new
operating state, whether `cache.Devices().Update` ran, and how many
`UpdateOpStateByName` calls were launched. -/
structure OpStateEffect where
  newState : OperatingState
  cacheUpdated : Bool
  updateOpStateCalls : Nat
deriving DecidableEq

def updateOperatingState (e : Option String) (st : OperatingState) :
    OpStateEffect :=
  match e with
  | some msg =>
      if strContains msg "timeout" then
        if st = OperatingState.Enabled then
          { newState := .Disabled, cacheUpdated := true, updateOpStateCalls := 1 }
        else { newState := st, cacheUpdated := false, updateOpStateCalls := 0 }
      else { newState := st, cacheUpdated := false, updateOpStateCalls := 0 }
  | none =>
      if st = OperatingState.Disabled then
        { newState := .Enabled, cacheUpdated := true, updateOpStateCalls := 1 }
      else { newState := st, cacheUpdated := false, updateOpStateCalls := 0 }

/-- C4: a timeout-text error on an Enabled device yields Disabled with
exactly one `UpdateOpStateByName` call; a success on a Disabled device
yields Enabled with exactly one call; every other outcome (non-timeout
error, error on an already-Disabled device, success on an already-Enabled
device) leaves the state unchanged with no call. -/
theorem updateOperatingState_transitions (e : Option String)
    (st : OperatingState) :
    (∀ msg, e = some msg → strContains msg "timeout" = true →
        st = OperatingState.Enabled →
        updateOperatingState e st =
          { newState := .Disabled, cacheUpdated := true, updateOpStateCalls := 1 }) ∧
    (e = none → st = OperatingState.Disabled →
        updateOperatingState e st =
          { newState := .Enabled, cacheUpdated := true, updateOpStateCalls := 1 }) ∧
    (¬ ((∃ msg, e = some msg ∧ strContains msg "timeout" = true) ∧
          st = OperatingState.Enabled) →
     ¬ (e = none ∧ st = OperatingState.Disabled) →
        updateOperatingState e st =
          { newState := st, cacheUpdated := false, updateOpStateCalls := 0 }) := by
  refine ⟨?_, ?_, ?_⟩
  · rintro msg rfl ht rfl
    simp [updateOperatingState, ht]
  · rintro rfl rfl
    simp [updateOperatingState]
  · intro h1 h2
    rcases e with _ | msg
    · rcases st with _ | _
      · simp [updateOperatingState]
      · exact absurd ⟨rfl, rfl⟩ h2
    · rcases hts : strContains msg "timeout" with _ | _
      · rcases st with _ | _ <;> simp [updateOperatingState, hts]
      · rcases st with _ | _
        · exact absurd ⟨⟨msg, rfl, hts⟩, rfl⟩ h1
        · simp [updateOperatingState, hts]

/-- C4 witness: a concrete timeout error on an Enabled device transitions
it to Disabled with one `UpdateOpStateByName` call. -/
theorem updateOperatingState_transitions_witness :
    updateOperatingState (some "Modbus: read timeout") OperatingState.Enabled =
      { newState := .Disabled, cacheUpdated := true, updateOpStateCalls := 1 } := by
  exact (updateOperatingState_transitions (some "Modbus: read timeout")
    OperatingState.Enabled).1 "Modbus: read timeout" rfl (by decide) rfl

/-! ### Callback reconciler: handleDevice PUT and DELETE

`handleDevice(method, id)` (package callback).  The device cache
implementation behind `cache.Devices()` is not among the sources (only its
`InitCache` seeding and its callers are), so its operations are modelled
from the spec, §4.C.  The Metadata fetch `common.DeviceClient.Device(id,
ctx)` is a function argument; the autoevent manager calls
(`StopForDevice` / `RestartForDevice`) are recorded as an action trace. -/

structure Device where
  id : String
  name : String
deriving DecidableEq

abbrev DeviceCache := List Device

/-- Modelled from the spec: the device cache's `ForId` lookup (the cache
implementation is not among the sources); §4.C — cache keys are unique
per device id. -/
def forId (c : DeviceCache) (id : String) : Option Device :=
  c.find? (fun d => d.id == id)

/-- Modelled from the spec: the device cache's `Remove` (the cache
implementation is not among the sources); §4.C — "`Remove` is by id or
name; missing → no-op-error". -/
def removeDevice (c : DeviceCache) (id : String) : Except String DeviceCache :=
  if (forId c id).isSome then
    Except.ok (c.filter (fun d => !(d.id == id)))
  else Except.error ("device " ++ id ++ " does not exist in cache")

/-- Modelled from the spec: the device cache's `Update` (the cache
implementation is not among the sources); §4.C — "`Update` preserves
identity (same `id`), replacing attributes"; an id that is not cached is
an error, as for `Remove`. -/
def updateDevice (c : DeviceCache) (dev : Device) : Except String DeviceCache :=
  if (forId c dev.id).isSome then
    Except.ok (c.map (fun d => if d.id == dev.id then dev else d))
  else Except.error ("device " ++ dev.id ++ " does not exist in cache")

inductive SchedulerAction where
  | stopForDevice (name : String)
  | restartForDevice (name : String)
deriving DecidableEq

/-- `common.AppError`: the handler returns `NewBadRequestError` on fetch
failures and `NewServerError` on cache mutation failures (`nil` =
`none`). -/
inductive AppError where
  | badRequest (msg : String)
  | serverError (msg : String)
deriving DecidableEq

def AppError.isBadReq : AppError → Bool
  | .badRequest _ => true
  | _ => false

/-- The DELETE branch of `handleDevice` (lines 92–105): stop autoevents
when the id is cached, then `cache.Devices().Remove(id)`; a failing
`Remove` yields `NewServerError`.  Returns the new cache, the autoevent
manager calls, and the `AppError`. -/
def handleDeviceDelete (c : DeviceCache) (id : String) :
    DeviceCache × List SchedulerAction × Option AppError :=
  let acts :=
    match forId c id with
    | some d => [SchedulerAction.stopForDevice d.name]
    | none => []
  match removeDevice c id with
  | .ok c2 => (c2, acts, none)
  | .error e => (c, acts, some (AppError.serverError e))

/-- The PUT branch of `handleDevice` (lines 73–91): fetch the device from
Metadata (`badRequest` when that fails), then `cache.Devices().Update`
(`serverError` when that fails), then restart the device's autoevents. -/
def handleDevicePut (fetch : String → Option Device) (c : DeviceCache)
    (id : String) : DeviceCache × List SchedulerAction × Option AppError :=
  match fetch id with
  | none => (c, [], some (AppError.badRequest ("cannot find the device " ++ id)))
  | some dev =>
      match updateDevice c dev with
      | .ok c2 => (c2, [SchedulerAction.restartForDevice dev.name], none)
      | .error e => (c, [], some (AppError.serverError e))

/-- C5: a callback DELETE of an unknown id does not return `BadRequest` —
the failing cache `Remove` is mapped to `NewServerError`.  (The cache is
unchanged and no scheduler call happens, as claimed.) -/
theorem handleDeviceDelete_unknown_counterexample :
    handleDeviceDelete [] "unknown" =
      ([], [], some (AppError.serverError "device unknown does not exist in cache")) ∧
    AppError.isBadReq
      (AppError.serverError "device unknown does not exist in cache") = false := by
  exact ⟨rfl, rfl⟩

/-- C5 (amended): a callback DELETE of an id that no cached device has
leaves the cache unchanged, performs no scheduler stop or restart, and
returns a ServerError (not a BadRequest). -/
theorem handleDeviceDelete_unknown (c : DeviceCache) (id : String)
    (h : forId c id = none) :
    (handleDeviceDelete c id).1 = c ∧
    (handleDeviceDelete c id).2.1 = [] ∧
    (handleDeviceDelete c id).2.2 =
      some (AppError.serverError ("device " ++ id ++ " does not exist in cache")) := by
  simp [handleDeviceDelete, removeDevice, h]

/-- C5 witness: the amended DELETE theorem on a one-device cache and a
different id. -/
theorem handleDeviceDelete_unknown_witness :
    (handleDeviceDelete [⟨"id1", "dev1"⟩] "other").1 = [⟨"id1", "dev1"⟩] ∧
    (handleDeviceDelete [⟨"id1", "dev1"⟩] "other").2.1 = [] ∧
    (handleDeviceDelete [⟨"id1", "dev1"⟩] "other").2.2 =
      some (AppError.serverError "device other does not exist in cache") := by
  exact handleDeviceDelete_unknown [⟨"id1", "dev1"⟩] "other" (by decide)

/-- Helper for C6: after `Update` replaces the entry with the same id, the
updated device is found by `ForId`. -/
theorem forId_update (c : DeviceCache) (dev : Device)
    (h : (forId c dev.id).isSome = true) :
    forId (c.map (fun d => if d.id = dev.id then dev else d)) dev.id =
      some dev := by
  induction c with
  | nil => simp [forId] at h
  | cons a t ih =>
      rcases hb : (a.id == dev.id) with _ | _
      · have ha : ¬ a.id = dev.id := by simpa using hb
        have h' : (forId t dev.id).isSome = true := by
          simpa [forId, List.find?, hb] using h
        simpa [forId, List.find?, List.map, ha, hb] using ih h'
      · have ha : a.id = dev.id := by simpa using hb
        simp [forId, List.find?, List.map, ha]

/-- C6: the claim that a callback PUT adds the fetched device when it is
absent from the cache is false — the handler only calls `Update`, which
fails on a missing id, so the handler returns a ServerError and the
device is not in the cache afterwards. -/
theorem handleDevicePut_absent_counterexample :
    handleDevicePut (fun i => if i == "d1" then some ⟨"d1", "Dev1"⟩ else none)
        [] "d1" =
      ([], [], some (AppError.serverError "device d1 does not exist in cache")) ∧
    forId [] "d1" = none := by
  exact ⟨rfl, rfl⟩

/-- C6 (amended): a callback PUT whose id Metadata resolves updates the
cache and restarts the device's autoevents only when a device with that
id is already cached (the fetched device is then present afterwards);
when it is absent, `Update` fails, the handler returns a ServerError, the
cache is unchanged, no restart happens, and the device is not added. -/
theorem handleDevicePut_spec (fetch : String → Option Device)
    (c : DeviceCache) (id : String) (dev : Device)
    (hf : fetch id = some dev) :
    ((forId c dev.id).isSome = true →
        (handleDevicePut fetch c id).2.2 = none ∧
        (handleDevicePut fetch c id).2.1 =
          [SchedulerAction.restartForDevice dev.name] ∧
        forId (handleDevicePut fetch c id).1 dev.id = some dev) ∧
    (forId c dev.id = none →
        handleDevicePut fetch c id =
          (c, [], some (AppError.serverError
            ("device " ++ dev.id ++ " does not exist in cache")))) := by
  constructor
  · intro hin
    refine ⟨?_, ?_, ?_⟩ <;> simp [handleDevicePut, hf, updateDevice, hin]
    exact forId_update c dev hin
  · intro hnone
    simp [handleDevicePut, hf, updateDevice, hnone]

/-- C6 witness: a PUT whose id is cached updates the device in place. -/
theorem handleDevicePut_spec_witness :
    (handleDevicePut (fun _ => some ⟨"d1", "Dev1"⟩) [⟨"d1", "Old"⟩] "d1").2.2 =
      none ∧
    forId (handleDevicePut (fun _ => some ⟨"d1", "Dev1"⟩) [⟨"d1", "Old"⟩]
      "d1").1 "d1" = some ⟨"d1", "Dev1"⟩ := by
  have h := (handleDevicePut_spec (fun _ => some ⟨"d1", "Dev1"⟩)
    [⟨"d1", "Old"⟩] "d1" ⟨"d1", "Dev1"⟩ rfl).1 (by decide)
  exact ⟨h.1, h.2.2⟩

/-! ### AutoEvent scheduler: AddScheduleEvent / RemoveScheduleEvent

The cron engine (`gopkg.in/robfig/cron.v2`) is external; calls into it are
recorded as an action trace.  `AddScheduleEvent` begins with `cr.Stop()`
and a `defer cr.Start()`, so every return path is bracketed
`stop … start`; `RemoveScheduleEvent` calls `cr.Remove(entry)` with no
stop or start around it.  The schedule-cache lookup plus `cronSpec`
computation, and `cr.AddJob`, are parameters (`none` = the corresponding
error path). -/

inductive CronAction where
  | stop
  | start
  | addJob (spec : String)
  | removeEntry (id : Nat)
deriving DecidableEq

def isEngineToggle : CronAction → Bool
  | .stop => true
  | .start => true
  | _ => false

abbrev EntryMap := List (String × Nat)

def AddScheduleEvent (entryMap : EntryMap) (cronSpecOf : Option String)
    (addJobRes : Option Nat) (evtName : String) :
    EntryMap × List CronAction × Option String :=
  -- cr.Stop() runs first; the deferred cr.Start() is the last action on
  -- every return path
  let ret := fun (em : EntryMap) (mid : List CronAction) (err : Option String) =>
    (em, CronAction.stop :: (mid ++ [CronAction.start]), err)
  if (entryMap.find? (fun p => p.1 == evtName)).isSome then
    ret entryMap []
      (some ("Schedule event " ++ evtName ++ " already exists in scheduler"))
  else
    match cronSpecOf with
    | none => ret entryMap []
        (some ("Schedule for schedule event " ++ evtName ++
          " cannot be found in cache"))
    | some spec =>
        match addJobRes with
        | none => ret entryMap [CronAction.addJob spec] (some "AddJob failed")
        | some entry =>
            ret ((evtName, entry) :: entryMap) [CronAction.addJob spec] none

def RemoveScheduleEvent (entryMap : EntryMap) (name : String) :
    EntryMap × List CronAction × Option String :=
  match entryMap.find? (fun p => p.1 == name) with
  | none => (entryMap, [],
      some ("Schedule event " ++ name ++ " does not exist in scheduler"))
  | some (_, entry) =>
      (entryMap.filter (fun p => !(p.1 == name)),
        [CronAction.removeEntry entry], none)

/-- C7: `RemoveScheduleEvent` mutates the entry heap without pausing the
cron engine — removing an existing entry emits only `cr.Remove`, no
`cr.Stop` and no `cr.Start`. -/
theorem RemoveScheduleEvent_no_pause_counterexample :
    RemoveScheduleEvent [("evt", 7)] "evt" =
      ([], [CronAction.removeEntry 7], none) ∧
    ([CronAction.removeEntry 7].countP isEngineToggle) = 0 := by
  exact ⟨rfl, rfl⟩

/-- C7 (amended): every `AddScheduleEvent` execution is bracketed by the
engine pause and resume — the trace starts with `cr.Stop()`, ends with the
deferred `cr.Start()`, and toggles the engine exactly twice — but
`RemoveScheduleEvent` never stops or starts the engine. -/
theorem scheduler_pause_resume (em : EntryMap) (cs : Option String)
    (aj : Option Nat) (evtName : String) (em2 : EntryMap) (name2 : String) :
    ((AddScheduleEvent em cs aj evtName).2.1.head? = some CronAction.stop ∧
     (AddScheduleEvent em cs aj evtName).2.1.getLast? = some CronAction.start ∧
     (AddScheduleEvent em cs aj evtName).2.1.countP isEngineToggle = 2) ∧
    (RemoveScheduleEvent em2 name2).2.1.countP isEngineToggle = 0 := by
  constructor
  · by_cases h : (em.find? (fun p => p.1 == evtName)).isSome
    · refine ⟨?_, ?_, ?_⟩ <;> simp [AddScheduleEvent, h, isEngineToggle]
    · cases cs with
      | none => refine ⟨?_, ?_, ?_⟩ <;> simp [AddScheduleEvent, h, isEngineToggle]
      | some spec =>
          cases aj with
          | none =>
              refine ⟨?_, ?_, ?_⟩ <;> simp [AddScheduleEvent, h, isEngineToggle]
          | some entry =>
              refine ⟨?_, ?_, ?_⟩ <;> simp [AddScheduleEvent, h, isEngineToggle]
  · cases hf : em2.find? (fun p => p.1 == name2) with
    | none => simp [RemoveScheduleEvent, hf]
    | some pr => simp [RemoveScheduleEvent, hf, isEngineToggle]

/-! ### Bootstrap dependency check (internal/clients/init.go)

`checkServiceAvailable(serviceId)` runs `for i := 0; i <
ConnectRetries; i++`: a successful ping returns nil at once, a failed one
sleeps `Timeout` ms and retries; when the loop exhausts, the function logs
and returns the error `"service dependency <id> checking time out"`.
`checkDependencyServices()` runs the check for Core Data and Metadata in
two goroutines, gathers failures into a channel, and fails iff the channel
is non-empty.  Ping outcomes are a function `Nat → Bool` (attempt number ↦
success); the sleeps and the goroutine interleaving carry no
result-relevant state, so the two checks are evaluated directly. -/

/-- The retry loop of `checkServiceAvailable`, with `n` the number of
iterations left and `i` the current attempt index; returns whether some
remaining ping succeeds before the retries exhaust. -/
def checkAvailGo (ping : Nat → Bool) : Nat → Nat → Bool
  | _, 0 => false
  | i, n + 1 => if ping i then true else checkAvailGo ping (i + 1) n

def checkServiceAvailable (retries : Nat) (ping : Nat → Bool)
    (serviceId : String) : Option String :=
  if checkAvailGo ping 0 retries then none
  else some ("service dependency " ++ serviceId ++ " checking time out")

def checkDependencyServices (retries : Nat)
    (pingData pingMeta : Nat → Bool) : Option String :=
  let checkingErrs :=
    [checkServiceAvailable retries pingData "Data",
     checkServiceAvailable retries pingMeta "Metadata"].filterMap id
  if 0 < checkingErrs.length then
    some "checking required dependencied services failed "
  else none

theorem checkAvailGo_iff (ping : Nat → Bool) (n : Nat) :
    ∀ i, checkAvailGo ping i n = true ↔ ∃ k, k < n ∧ ping (i + k) = true := by
  induction n with
  | zero => intro i; simp [checkAvailGo]
  | succ n ih =>
      intro i
      rcases hp : ping i with _ | _
      · rw [checkAvailGo]
        rw [hp]
        simp only [if_false, Bool.false_eq_true, ite_false]
        rw [ih (i + 1)]
        constructor
        · rintro ⟨k, hk, hpk⟩
          refine ⟨k + 1, by omega, ?_⟩
          have harith : i + (k + 1) = i + 1 + k := by omega
          rw [harith]; exact hpk
        · rintro ⟨k, hk, hpk⟩
          cases k with
          | zero =>
              rw [Nat.add_zero] at hpk
              rw [hpk] at hp
              cases hp
          | succ k =>
              refine ⟨k, by omega, ?_⟩
              have harith : i + 1 + k = i + (k + 1) := by omega
              rw [harith]; exact hpk
      · rw [checkAvailGo, hp]
        simp only [ite_true, true_iff]
        exact ⟨0, by omega, by rw [Nat.add_zero]; exact hp⟩

/-- A service check exhausts exactly when every one of its `retries` pings
fails. -/
theorem checkAvailGo_false_iff (ping : Nat → Bool) (retries : Nat) :
    checkAvailGo ping 0 retries = false ↔
      ∀ i, i < retries → ping i = false := by
  rw [← Bool.not_eq_true, checkAvailGo_iff ping retries 0]
  constructor
  · intro h i hi
    rcases hb : ping i with _ | _
    · rfl
    · exact absurd ⟨i, hi, by rw [Nat.zero_add]; exact hb⟩ h
  · rintro h ⟨k, hk, hpk⟩
    rw [Nat.zero_add] at hpk
    rw [h k hk] at hpk
    cases hpk

/-- C8: `checkDependencyServices` returns an error exactly when at least
one of the Core Data / Metadata checks answers no ping within `retries`
attempts, and an exhausted Metadata check produces the error text
"service dependency Metadata checking time out". -/
theorem checkDependencyServices_spec (retries : Nat)
    (pingData pingMeta : Nat → Bool) :
    ((checkDependencyServices retries pingData pingMeta).isSome ↔
      ((∀ i, i < retries → pingData i = false) ∨
       (∀ i, i < retries → pingMeta i = false))) ∧
    ((∀ i, i < retries → pingMeta i = false) →
      checkServiceAvailable retries pingMeta "Metadata" =
        some "service dependency Metadata checking time out") := by
  constructor
  · rcases hd : checkAvailGo pingData 0 retries with _ | _ <;>
      rcases hm : checkAvailGo pingMeta 0 retries with _ | _ <;>
        simp [checkDependencyServices, checkServiceAvailable, hd, hm]
    · exact Or.inl ((checkAvailGo_false_iff pingData retries).mp hd)
    · exact Or.inl ((checkAvailGo_false_iff pingData retries).mp hd)
    · exact Or.inr ((checkAvailGo_false_iff pingMeta retries).mp hm)
    · constructor
      · rcases (checkAvailGo_iff pingData retries 0).mp hd with ⟨k, hk, hpk⟩
        exact ⟨k, hk, by simpa using hpk⟩
      · rcases (checkAvailGo_iff pingMeta retries 0).mp hm with ⟨k, hk, hpk⟩
        exact ⟨k, hk, by simpa using hpk⟩
  · intro hall
    have hfail : checkAvailGo pingMeta 0 retries = false :=
      (checkAvailGo_false_iff pingMeta retries).mpr hall
    simp [checkServiceAvailable, hfail]

/-- C8 witness: with 3 retries, Core Data answering and Metadata never
answering, the dependency check fails and the Metadata check carries the
claimed message. -/
theorem checkDependencyServices_spec_witness :
    (checkDependencyServices 3 (fun _ => true) (fun _ => false)).isSome ∧
    checkServiceAvailable 3 (fun _ => false) "Metadata" =
      some "service dependency Metadata checking time out" := by
  constructor
  · exact (checkDependencyServices_spec 3 (fun _ => true)
      (fun _ => false)).1.mpr (Or.inr (fun i _ => rfl))
  · exact (checkDependencyServices_spec 3 (fun _ => true)
      (fun _ => false)).2 (fun i _ => rfl)

end DeviceSdk
